import Mathlib

set_option maxRecDepth 10000

/-! Verification development for the CourseSensei webhook (webhook.py): a
Dialogflow fulfillment engine answering university-course queries over an OWL
ontology loaded with owlready2.  Python runtime values are modelled by the
inductive type `PyVal`; ontology individuals are `PyVal.vnode name type attrs`
where `attrs` gives the result of attribute access for every ontology property
that has a value on the individual (owlready2 returns a list for relational
properties and a scalar, or `None`, for functional data properties).  All
string-processing primitives used by the source (regexes, split, strip, lower,
replace, join) are re-implemented structurally so that concrete runs reduce
inside the kernel. -/

inductive PyVal : Type where
  | vnone : PyVal
  | vstr : String → PyVal
  | vint : Int → PyVal
  | vlist : List PyVal → PyVal
  | vnode : String → String → List (String × PyVal) → PyVal

instance : Inhabited PyVal := ⟨PyVal.vnone⟩

/-- Python truthiness (`if value:`): None, "", 0 and [] are falsy; ontology
individuals are truthy. -/
def truthy : PyVal → Bool
  | .vnone => false
  | .vstr s => !s.isEmpty
  | .vint n => n != 0
  | .vlist xs => !xs.isEmpty
  | .vnode _ _ _ => true

/-- Attribute access on a value: `hasattr`/`getattr` succeed on an ontology
individual for its `name` and for any property listed in `attrs`; they fail on
other values (the handlers only ever look up ontology relation names, never
Python builtin attributes of primitives, so those are not modelled). -/
def getattrOpt : PyVal → String → Option PyVal
  | .vnode nm _ attrs, prop => if prop == "name" then some (.vstr nm) else attrs.lookup prop
  | _, _ => none

/-- Direct attribute read `x.Prop` for a functional (scalar) ontology property:
a property that carries no value reads as `None`. -/
def getAttrV (n : PyVal) (prop : String) : PyVal := (getattrOpt n prop).getD .vnone

/-- Iterate a value as a Python list; relational ontology properties are
list-valued, an unset one reads as `[]`. -/
def pyIterList : PyVal → List PyVal
  | .vlist xs => xs
  | _ => []

/-- Direct attribute read `x.Rel` for a relational (list-valued) property. -/
def relOf (n : PyVal) (prop : String) : List PyVal := pyIterList (getAttrV n prop)

/-- Python `str()` on the values this program prints.  Ontology individuals
print as their short name; attribute values in this ontology nest lists at
most one level deep, so the element repr does not recurse further. -/
def pyAtomRepr : PyVal → String
  | .vnone => "None"
  | .vstr s => "\x27" ++ s ++ "\x27"
  | .vint n => toString n
  | .vnode nm _ _ => nm
  | .vlist _ => "[...]"

def pyStr : PyVal → String
  | .vnone => "None"
  | .vstr s => s
  | .vint n => toString n
  | .vnode nm _ _ => nm
  | .vlist xs => "[" ++ String.intercalate ", " (xs.map pyAtomRepr) ++ "]"

/-- The webhook `parameters` mapping (string keys to JSON-derived values). -/
abbrev Params := List (String × PyVal)

/-- Python `params.get(k, dflt)`. -/
def pget (params : Params) (k : String) (dflt : PyVal) : PyVal := (params.lookup k).getD dflt

/-- Python `params.get(k)` (default None). -/
def pgetOpt (params : Params) (k : String) : PyVal := pget params k .vnone

/-- Parameters that the handlers pass where a string is required
(`params.get(k, "")` for course, instructor, program, term names). -/
def pgetStr (params : Params) (k : String) : String := pyStr (pget params k (.vstr ""))

/-- Python `k in params` for a dict. -/
def containsKey (params : Params) (k : String) : Bool := params.any (fun e => e.fst == k)

/-- Python dict assignment `params[k] = v` (replaces in place, else appends). -/
def setParam (params : Params) (k : String) (v : PyVal) : Params :=
  if containsKey params k then params.map (fun e => if e.fst == k then (k, v) else e)
  else params ++ [(k, v)]

/-- Characters matched by Python `\s` (ASCII fragment). -/
def pySpace (c : Char) : Bool :=
  c == ' ' || c == '\t' || c == '\n' || c == '\r' || c == '\x0b' || c == '\x0c'

/-- Characters matched by Python `\w` (ASCII fragment): letters, digits and
underscore. -/
def isWordChar (c : Char) : Bool := c.isAlphanum || c == '_'

/-- Python `str.strip()`. -/
def stripStr (s : String) : String :=
  String.mk (((s.data.dropWhile pySpace).reverse.dropWhile pySpace).reverse)

/-- Python `str.lower()` (ASCII fragment). -/
def lowerStr (s : String) : String := String.mk (s.data.map Char.toLower)

/-- Core of `re.sub(r'\W+', '_', s)`: each maximal run of non-word characters
is replaced by a single underscore.  The flag records whether the previous
character belonged to a non-word run whose underscore was already emitted. -/
def collapseAux : Bool → List Char → List Char
  | _, [] => []
  | inRun, c :: rest =>
    if isWordChar c then c :: collapseAux false rest
    else if inRun then collapseAux true rest
    else '_' :: collapseAux true rest

/-- `sanitize_id`: convert names to valid ontology IDs,
`re.sub(r'\W+', '_', name.strip().lower())`. -/
def sanitize_id (name : String) : String :=
  String.mk (collapseAux false (lowerStr (stripStr name)).data)

def MAX_INPUT_LENGTH : Nat := 50

/-- `validate_input`: reject empty or overlong values, then require
`re.match(r"^[\w\s-]+$", value)`, i.e. every character is a word character,
whitespace, or a hyphen. -/
def validate_input (value : String) : Bool :=
  !value.data.isEmpty && value.data.length ≤ MAX_INPUT_LENGTH &&
    value.data.all (fun c => isWordChar c || pySpace c || c == '-')

/-- ERROR_TEMPLATES["not_found"]: "I couldn't find {entity} '{name}'." -/
def notFoundMsg (entity nm : String) : String :=
  "I couldn\x27t find " ++ entity ++ " \x27" ++ nm ++ "\x27."

/-- ERROR_TEMPLATES["no_data"]: "No {data_type} available for {entity} '{name}'." -/
def noDataMsg (dataType entity nm : String) : String :=
  "No " ++ dataType ++ " available for " ++ entity ++ " \x27" ++ nm ++ "\x27."

/-- ERROR_TEMPLATES["pagination"] footer. -/
def paginationMsg (current total : Nat) : String :=
  "\n\n(Page " ++ toString current ++ "/" ++ toString total ++
    " - Say \x27next page\x27 or \x27previous page\x27)"

/-- ERROR_TEMPLATES["invalid_input"] (never referenced by the source's code paths). -/
def invalidInputMsg (entity : String) : String :=
  "Please provide a valid " ++ entity ++ " (3-50 characters)."

/-- Python `str.split(sep)` for a one-character separator. -/
def splitOnChar (sep : Char) : List Char → List (List Char)
  | [] => [[]]
  | c :: rest =>
    match splitOnChar sep rest with
    | [] => [[]]
    | g :: gs => if c == sep then [] :: g :: gs else (c :: g) :: gs

/-- `property_path.split('.')` as used by the path resolver. -/
def pathProps (p : String) : List String := (splitOnChar '.' p.data).map String.mk

/-- Python `", ".join(items)`. -/
def joinWith (sep : String) : List String → String
  | [] => ""
  | [x] => x
  | x :: y :: rest => x ++ sep ++ joinWith sep (y :: rest)

/-- Python `str.replace(pat, rep)` (all non-overlapping occurrences, left to
right); fuel is the length of the subject, which each step consumes. -/
def replaceAllAux (pat rep : List Char) : Nat → List Char → List Char
  | _, [] => []
  | 0, l => l
  | fuel + 1, c :: rest =>
    if !pat.isEmpty && pat.isPrefixOf (c :: rest) then
      rep ++ replaceAllAux pat rep fuel ((c :: rest).drop pat.length)
    else c :: replaceAllAux pat rep fuel rest

def pyReplace (s pat rep : String) : String :=
  String.mk (replaceAllAux pat.data rep.data s.data.length s.data)

/-- Substring containment, Python `needle in hay` on strings. -/
def listContainsSub (needle : List Char) : List Char → Bool
  | [] => needle.isEmpty
  | c :: rest => needle.isPrefixOf (c :: rest) || listContainsSub needle rest

def substrB (needle hay : String) : Bool := listContainsSub needle.data hay.data

def digitsToNat (l : List Char) : Nat := l.foldl (fun n c => 10 * n + (c.toNat - 48)) 0

/-- Python `int(str)` on a stripped string: optional sign then digits. -/
def parseIntDigits : List Char → Option Int
  | '-' :: ds => if !ds.isEmpty && ds.all Char.isDigit then some (-(digitsToNat ds : Int)) else none
  | '+' :: ds => if !ds.isEmpty && ds.all Char.isDigit then some ((digitsToNat ds : Int)) else none
  | ds => if !ds.isEmpty && ds.all Char.isDigit then some ((digitsToNat ds : Int)) else none

/-- Python `int(x)` on the values this program converts; `none` models the
raised `ValueError`/`TypeError`. -/
def pyToInt? : PyVal → Option Int
  | .vint n => some n
  | .vstr s => parseIntDigits (stripStr s).data
  | _ => none

/-- Loop of `get_nested_property`: walk the dot-separated property chain; a
list is collapsed to its first element (empty list: early return None) before
each attribute read; a failed `hasattr` check is an early return None. -/
def gnpLoop : PyVal → List String → Option PyVal
  | obj, [] => some obj
  | obj, prop :: rest =>
    match (match obj with
           | .vlist [] => none
           | .vlist (x :: _) => some x
           | v => some v) with
    | none => none
    | some v =>
      match getattrOpt v prop with
      | none => none
      | some v2 => gnpLoop v2 rest

/-- Final step of `get_nested_property`: a list result is collapsed to its
first element (without any further check), a scalar result is compared against
`None` and the sentinel "NA". -/
def gnpFinal : PyVal → PyVal
  | .vlist [] => .vnone
  | .vlist (x :: _) => x
  | .vnone => .vnone
  | .vstr s => if s == "NA" then .vnone else .vstr s
  | v => v

/-- `get_nested_property(obj, property_path)`: safely navigate nested ontology
properties given a dot-separated property path.  The body is fully guarded, so
the source's try/except never fires; every early return is `None`, modelled by
`PyVal.vnone`. -/
def get_nested_property (obj : PyVal) (property_path : String) : PyVal :=
  match gnpLoop obj (pathProps property_path) with
  | none => .vnone
  | some v => gnpFinal v

def PAGE_SIZE : Nat := 3

/-- `paginate_items(items, page_size=PAGE_SIZE)`: split a list of items into
pages, `[items[i:i+3] for i in range(0, len(items), 3)]`, specialised to the
fixed page size 3. -/
def paginate_items : List PyVal → List (List PyVal)
  | [] => []
  | a :: rest =>
    match rest with
    | [] => [[a]]
    | b :: rest2 =>
      match rest2 with
      | [] => [[a, b]]
      | c :: rest3 => [a, b, c] :: paginate_items rest3

/-- The loaded ontology: its list of individuals. -/
abbrev Graph := List PyVal

/-- `onto.search(iri=f"*#{pat}")`, first result or None: exact-suffix match of
the IRI, i.e. an individual whose short name equals `pat`. -/
def searchIri (g : Graph) (pat : String) : Option PyVal :=
  g.find? (fun n => match n with | .vnode nm _ _ => nm == pat | _ => false)

/-- `onto.search(type=onto.T)`: every individual of the named class. -/
def searchType (g : Graph) (ty : String) : List PyVal :=
  g.filter (fun n => match n with | .vnode _ t _ => t == ty | _ => false)

/-- Does an individual's `Instructors` attribute equal (or, for a multi-valued
property, contain) the given string, as `onto.search(Instructors=x)` tests. -/
def instructorsAttrMatches (n : PyVal) (val : String) : Bool :=
  match getattrOpt n "Instructors" with
  | some (.vstr s) => s == val
  | some (.vlist xs) => xs.any (fun w => match w with | .vstr s => s == val | _ => false)
  | _ => false

def searchInstructors (g : Graph) (val : String) : Option PyVal :=
  g.find? (fun n => instructorsAttrMatches n val)

/-- `get_course(course_name)`: invalid input resolves to None without touching
the graph; otherwise look the sanitized identifier up in the ontology. -/
def get_course (g : Graph) (course_name : String) : Option PyVal :=
  if !validate_input course_name then none
  else searchIri g (sanitize_id course_name)

/-- `get_instructor(instructor_name)`: invalid input resolves to None;
otherwise an attribute-equality scan on `Instructors` with the stripped name. -/
def get_instructor (g : Graph) (instructor_name : String) : Option PyVal :=
  if !validate_input instructor_name then none
  else searchInstructors g (stripStr instructor_name)

/-- `get_course_metadata(course)`: `course.hasCourseMetadata[0]`, catching
AttributeError/IndexError as None. -/
def get_course_metadata (course : PyVal) : Option PyVal :=
  (relOf course "hasCourseMetadata").head?

/-- `get_basic_info(course)`: `course.hasBasicInfo[0]`, same error handling. -/
def get_basic_info (course : PyVal) : Option PyVal :=
  (relOf course "hasBasicInfo").head?

def nodeNameOf : PyVal → String
  | .vnode nm _ _ => nm
  | _ => ""

/-- Python `term in course.belongsToTerm`: identity of ontology individuals,
which are uniquely keyed by their IRI short name. -/
def sameNode (a b : PyVal) : Bool :=
  match a, b with
  | .vnode nm _ _, .vnode nm2 _ _ => nm == nm2
  | _, _ => false

/-- `term.name.split('_')[-1]`. -/
def lastComponent (s : String) : String :=
  String.mk ((splitOnChar '_' s.data).getLastD [])

/-- Insertion-order deduplication, modelling the Python `set` accumulation of
instructor names (the set's own iteration order is arbitrary; the join below
is modelled on first-insertion order). -/
def dedupAux (seen : List String) : List String → List String
  | [] => []
  | x :: xs => if seen.contains x then dedupAux seen xs else x :: dedupAux (x :: seen) xs

def dedupKeepFirst (l : List String) : List String := dedupAux [] l

/-- Stable sort by an integer key, modelling Python `sorted(xs, key=f)`. -/
def insertByKey (f : PyVal → Int) (x : PyVal) : List PyVal → List PyVal
  | [] => [x]
  | y :: ys => if f x ≤ f y then x :: y :: ys else y :: insertByKey f x ys

def sortByKey (f : PyVal → Int) : List PyVal → List PyVal
  | [] => []
  | x :: xs => insertByKey f x (sortByKey f xs)

/-- `handle_standard_query(params, property_path, data_type, entity_name="course")`:
resolve the course, read the dotted path, and answer with `str(value)`; an
unresolved course yields the not_found template, a falsy value the no_data
template.  All source call sites use the default `entity_name="course"`. -/
def handle_standard_query (g : Graph) (params : Params) (property_path : String)
    (data_type : String) (entity_name : String) : String :=
  match get_course g (pgetStr params "courseName") with
  | none => notFoundMsg entity_name (pyStr (pgetOpt params "courseName"))
  | some course =>
    let value := get_nested_property course property_path
    if !truthy value then noDataMsg data_type entity_name (pyStr (pgetOpt params "courseName"))
    else pyStr value

def applyFmt (f : Option (PyVal → PyVal)) (v : PyVal) : PyVal :=
  match f with
  | some fn => fn v
  | none => v

/-- Item extraction step of `handle_list_query`: split the path, read
`getattr(course, first_prop, [])`, and either format the truthy items directly
or resolve the remaining path on each item and keep the truthy values. -/
def listQueryItems (course : PyVal) (property_path : String)
    (format_func : Option (PyVal → PyVal)) : List PyVal :=
  let parts := pathProps property_path
  let results := pyIterList (getAttrV course (parts.headD ""))
  match parts.tail with
  | [] => (results.filter truthy).map (applyFmt format_func)
  | r :: rs =>
    results.filterMap (fun item =>
      let value := get_nested_property item (joinWith "." (r :: rs))
      if truthy value then some (applyFmt format_func value) else none)

/-- `handle_list_query(params, property_path, items_name, format_func=None)`:
resolve the course, build the item list, convert the page parameter with
`int(...)` (a failing conversion raises, modelled by `none`), paginate, clamp
the page index, join the page's items and append the pagination footer when
more than one page exists; an empty item list yields the no_data template. -/
def handle_list_query (g : Graph) (params : Params) (property_path : String)
    (items_name : String) (format_func : Option (PyVal → PyVal)) : Option String :=
  match get_course g (pgetStr params "courseName") with
  | none => some (notFoundMsg "course" (pyStr (pgetOpt params "courseName")))
  | some course =>
    match pyToInt? (pget params "page" (.vint 0)) with
    | none => none
    | some page =>
      let items := listQueryItems course property_path format_func
      let pages := paginate_items items
      if pages.isEmpty then
        some (noDataMsg items_name "course" (pyStr (pgetOpt params "courseName")))
      else
        let pageC : Int := max 0 (min page ((pages.length : Int) - 1))
        let response := joinWith "\n" ((pages.getD pageC.toNat []).map pyStr)
        some (if 1 < pages.length then response ++ paginationMsg (pageC.toNat + 1) pages.length
              else response)

/-- Query 2, `query_program_for_course`. -/
def query_program_for_course (g : Graph) (params : Params) : String :=
  match get_course g (pgetStr params "courseName") with
  | some course =>
    match relOf course "belongsToTerm" with
    | term :: _ =>
      if truthy term then
        match relOf term "belongsToProgram" with
        | program :: _ => "Taught in " ++ pyStr (getAttrV program "programName") ++ " program."
        | [] => "Program not found."
      else "Program not found."
    | [] => "Program not found."
  | none => "Program not found."

/-- Query 3, `query_term_for_course_program`: scan every Term individual for
one that contains the course and whose program's name contains the sanitized
program parameter as a substring; answer with the term name's numeric suffix. -/
def query_term_for_course_program (g : Graph) (params : Params) : String :=
  let program_param := sanitize_id (pgetStr params "program")
  match get_course g (pgetStr params "courseName") with
  | some course =>
    match (searchType g "Term").find? (fun term =>
        (relOf course "belongsToTerm").any (fun t => sameNode term t) &&
        !(relOf term "belongsToProgram").isEmpty &&
        substrB program_param (nodeNameOf ((relOf term "belongsToProgram").headD .vnone))) with
    | some term => "Term " ++ lastComponent (nodeNameOf term)
    | none => "Course not found in program."
  | none => "Course not found in program."

/-- Queries 5 and 14, `query_assessment_percentage`: first assessment whose
truthy `AssessmentTool` equals the requested tool after lower-casing both
sides; a truthy stored `Percentage` is echoed with "%" appended. -/
def assessmentToolMatch (tool_name : String) (b : PyVal) : Bool :=
  truthy (getAttrV b "AssessmentTool") &&
    lowerStr (pyStr (getAttrV b "AssessmentTool")) == lowerStr tool_name

def query_assessment_percentage (g : Graph) (params : Params) : String :=
  match get_course g (pgetStr params "courseName") with
  | some course =>
    if (relOf course "hasAssessment").isEmpty then
      notFoundMsg "course" (pyStr (pgetOpt params "courseName"))
    else
      match (relOf course "hasAssessment").find?
          (assessmentToolMatch (pgetStr params "assessmentTool")) with
      | some assessment =>
        if truthy (getAttrV assessment "Percentage") then
          pyStr (getAttrV assessment "Percentage") ++ "%"
        else noDataMsg "assessment percentage" "course" (pyStr (pgetOpt params "courseName"))
      | none => notFoundMsg "assessment tool" (pgetStr params "assessmentTool")
  | none => notFoundMsg "course" (pyStr (pgetOpt params "courseName"))

/-- Query 8, `query_session_info`: linear scan of the course's session plans
for the one whose `Session`, converted with `str`, equals the requested
session number; the three-field summary is post-processed with
`.replace("NA, ", "").replace("NA", "")`. -/
def query_session_info (g : Graph) (params : Params) : String :=
  match get_course g (pgetStr params "courseName") with
  | some course =>
    let session_num := pyStr (pget params "sessionNumber" (.vstr ""))
    match (relOf course "hasSessionPlan").find?
        (fun s => pyStr (getAttrV s "Session") == session_num) with
    | some session =>
      pyReplace (pyReplace
        ("Module: " ++ pyStr (getAttrV session "Module") ++
         ", Topic: " ++ pyStr (getAttrV session "Topic") ++
         ", Materials: " ++ pyStr (getAttrV session "ReadingMaterial"))
        "NA, " "") "NA" ""
    | none => "Session information not found."
  | none => "Session information not found."

/-- Query 11, `query_contact_instructor`. -/
def query_contact_instructor (g : Graph) (params : Params) : String :=
  let instructor_name := pgetStr params "instructorName"
  match get_instructor g instructor_name with
  | some inst =>
    if truthy (getAttrV inst "ContactDetails") then
      "Contact: " ++ pyStr (getAttrV inst "ContactDetails") ++
        ", Consultation Hours: " ++ pyStr (getAttrV inst "ConsultationHours")
    else notFoundMsg "instructor" instructor_name
  | none => notFoundMsg "instructor" instructor_name

/-- Course titles collected from a list of courses: `CourseCodeTitle` of each
course's metadata, kept when truthy. -/
def courseTitles (courses : List PyVal) : List String :=
  courses.filterMap (fun course =>
    match get_course_metadata course with
    | some meta =>
      if truthy (getAttrV meta "CourseCodeTitle") then some (pyStr (getAttrV meta "CourseCodeTitle"))
      else none
    | none => none)

/-- Query 12, `query_courses_by_instructor` (`hasattr(inst, "teachesCourse")`
always holds on a resolved individual since the property is defined in the
ontology; an unset property reads as the empty list). -/
def query_courses_by_instructor (g : Graph) (params : Params) : String :=
  let instructor_name := pgetStr params "instructorName"
  match get_instructor g instructor_name with
  | some inst =>
    let courses := relOf inst "teachesCourse"
    if !courses.isEmpty && !(courseTitles courses).isEmpty then
      instructor_name ++ " teaches: " ++ joinWith ", " (courseTitles courses) ++ "."
    else noDataMsg "courses" "instructor" instructor_name
  | none => notFoundMsg "instructor" instructor_name

/-- Query 16, `query_year_batch`. -/
def query_year_batch (g : Graph) (params : Params) : String :=
  handle_standard_query g params "hasCourseMetadata.YearBatch" "year/batch" "course"

/-- Query 17, `query_sections`. -/
def query_sections (g : Graph) (params : Params) : String :=
  handle_standard_query g params "hasCourseMetadata.Sections" "sections" "course"

/-- Query 22, `query_assessment_details_full`. -/
def query_assessment_details_full (g : Graph) (params : Params) : String :=
  match get_course g (pgetStr params "courseName") with
  | some course =>
    match relOf course "hasAssessment" with
    | [] => "No assessment details available."
    | a :: rest =>
      "Assessment details:\n" ++
        joinWith "\n" ((a :: rest).map (fun x =>
          let tool := if truthy (getAttrV x "AssessmentTool")
                      then pyStr (getAttrV x "AssessmentTool") else "Unknown Tool"
          let percentage := if truthy (getAttrV x "Percentage")
                            then pyStr (getAttrV x "Percentage") else "Unknown Percentage"
          let desc := if truthy (getAttrV x "AssessmentDescription")
                      then pyStr (getAttrV x "AssessmentDescription") else ""
          tool ++ " (" ++ percentage ++ "%): " ++ desc))
  | none => "No assessment details available."

/-- Query 23, `query_courses_in_program_term`: resolve the program by
sanitized identifier, find the first of its terms whose name contains the
sanitized term parameter, and list the course titles. -/
def query_courses_in_program_term (g : Graph) (params : Params) : String :=
  let program_param := sanitize_id (pgetStr params "program")
  let term_param := sanitize_id (pgetStr params "term")
  match searchIri g program_param with
  | some program =>
    match (relOf program "hasTerm").find? (fun t => substrB term_param (nodeNameOf t)) with
    | some term =>
      match courseTitles (relOf term "hasCourse") with
      | [] => "No courses found for the specified program and term."
      | c :: cs =>
        "Courses offered in " ++ pyStr (pgetOpt params "program") ++ " during term " ++
          pyStr (pgetOpt params "term") ++ ": " ++ joinWith ", " (c :: cs) ++ "."
    | none => "No courses found for the specified program and term."
  | none => "No courses found for the specified program and term."

/-- Instructor names collected from the courses of a list of terms. -/
def instructorNamesOfCourses (courses : List PyVal) : List String :=
  courses.foldl (fun acc course =>
    acc ++ (relOf course "hasInstructorDetails").filterMap (fun ins =>
      if truthy (getAttrV ins "Instructors") then some (pyStr (getAttrV ins "Instructors"))
      else none)) []

/-- Query 24, `query_instructors_in_program_term`: collect instructor names
into a set from either the program's terms or the named term. -/
def query_instructors_in_program_term (g : Graph) (params : Params) : String :=
  let instructors_set : List String :=
    if containsKey params "program" then
      match searchIri g (sanitize_id (pgetStr params "program")) with
      | some program =>
        dedupKeepFirst ((relOf program "hasTerm").foldl
          (fun acc term => acc ++ instructorNamesOfCourses (relOf term "hasCourse")) [])
      | none => []
    else if containsKey params "term" then
      match searchIri g (sanitize_id (pgetStr params "term")) with
      | some term => dedupKeepFirst (instructorNamesOfCourses (relOf term "hasCourse"))
      | none => []
    else []
  match instructors_set with
  | [] =>
    noDataMsg "instructors" "program/term"
      (pyStr (if truthy (pgetOpt params "program") then pgetOpt params "program"
              else pgetOpt params "term"))
  | i :: is => "Instructors: " ++ joinWith ", " (i :: is)

/-- Decimal numbers extracted by `re.search(r'(\d+\.?\d*)', s)` and converted
with `float(...)`: the value is `mant / 10 ^ scale`.  Order comparisons on
these short decimal percentages agree with the Python float comparisons they
model. -/
structure DecNum : Type where
  mant : Nat
  scale : Nat

/-- Strict order `x > y` on extracted decimals, by cross multiplication. -/
def decGTP (x y : DecNum) : Prop := y.mant * 10 ^ x.scale < x.mant * 10 ^ y.scale

instance (x y : DecNum) : Decidable (decGTP x y) :=
  inferInstanceAs (Decidable (_ < _))

/-- Non-strict order `x ≤ y` on extracted decimals. -/
def decLEP (x y : DecNum) : Prop := x.mant * 10 ^ y.scale ≤ y.mant * 10 ^ x.scale

/-- Rational value of an extracted decimal. -/
def dval (d : DecNum) : ℚ := (d.mant : ℚ) / 10 ^ d.scale

/-- Regex `\d+\.?\d*` matched at the start of `l`: one or more digits, an
optional dot, then any further digits (greedy). -/
def numToken (l : List Char) : Option (List Char) :=
  match l.takeWhile Char.isDigit with
  | [] => none
  | ds =>
    match l.drop ds.length with
    | '.' :: rest2 => some (ds ++ '.' :: rest2.takeWhile Char.isDigit)
    | _ => some ds

/-- `re.search`: try the pattern at each position, leftmost match wins. -/
def searchNum : List Char → Option (List Char)
  | [] => none
  | c :: rest =>
    match numToken (c :: rest) with
    | some t => some t
    | none => searchNum rest

/-- `float(...)` on a matched token (digits, optional dot, digits). -/
def decOfToken (t : List Char) : DecNum :=
  let ds := t.takeWhile Char.isDigit
  match t.drop ds.length with
  | _ :: fs => ⟨digitsToNat (ds ++ fs), fs.length⟩
  | [] => ⟨digitsToNat ds, 0⟩

/-- `re.search(r'(\d+\.?\d*)', s)` followed by `float(match.group(1))`. -/
def extractNum (s : String) : Option DecNum := (searchNum s.data).map decOfToken

/-- `a.Percentage or ""`. -/
def percStrOf (a : PyVal) : String :=
  if truthy (getAttrV a "Percentage") then pyStr (getAttrV a "Percentage") else ""

def parsedOf (a : PyVal) : Option DecNum := extractNum (percStrOf a)

/-- One iteration of the `query_highest_assessment_tool` loop: an assessment
without an extractable number is skipped; a strictly greater number replaces
the running maximum, so the first-encountered maximum wins ties. -/
def bestStep (acc : Option (DecNum × PyVal)) (a : PyVal) : Option (DecNum × PyVal) :=
  match parsedOf a with
  | none => acc
  | some perc =>
    match acc with
    | none => some (perc, getAttrV a "AssessmentTool")
    | some best => if decGTP perc best.fst then some (perc, getAttrV a "AssessmentTool")
                   else some best

def highestAssessment (l : List PyVal) : Option (DecNum × PyVal) := l.foldl bestStep none

/-- Remove trailing zero decimal digits, as Python float printing does. -/
def stripZeros : Nat → Nat → Nat × Nat
  | m, 0 => (m, 0)
  | m, s + 1 => if m % 10 = 0 then stripZeros (m / 10) s else (m, s + 1)

/-- Fractional digits padded with leading zeros to the scale's width. -/
def fracDigitsStr (frac digits : Nat) : String :=
  String.mk (List.replicate (digits - (toString frac).data.length) '0') ++ toString frac

/-- Python `str(float)` on the short decimals extracted from percentages. -/
def decDisplay (d : DecNum) : String :=
  match stripZeros d.mant d.scale with
  | (m, 0) => toString m ++ ".0"
  | (m, s + 1) => toString (m / 10 ^ (s + 1)) ++ "." ++ fracDigitsStr (m % 10 ^ (s + 1)) (s + 1)

/-- Query 26, `query_highest_assessment_tool`. -/
def query_highest_assessment_tool (g : Graph) (params : Params) : String :=
  match get_course g (pgetStr params "courseName") with
  | some course =>
    match relOf course "hasAssessment" with
    | [] => noDataMsg "assessment tool" "course" (pyStr (pgetOpt params "courseName"))
    | a :: rest =>
      match highestAssessment (a :: rest) with
      | some best =>
        "Highest weighted assessment tool: " ++ pyStr best.snd ++
          " (" ++ decDisplay best.fst ++ "%)."
      | none => noDataMsg "assessment tool" "course" (pyStr (pgetOpt params "courseName"))
  | none => noDataMsg "assessment tool" "course" (pyStr (pgetOpt params "courseName"))

/-- Query 27, `query_consultation_contact`. -/
def query_consultation_contact (g : Graph) (params : Params) : String :=
  match get_course g (pgetStr params "courseName") with
  | some course =>
    match relOf course "hasInstructorDetails" with
    | instructor :: _ =>
      if truthy (getAttrV instructor "ContactDetails") ||
         truthy (getAttrV instructor "ConsultationHours") then
        "Contact: " ++ pyStr (getAttrV instructor "ContactDetails") ++
          ", Consultation Hours: " ++ pyStr (getAttrV instructor "ConsultationHours")
      else noDataMsg "consultation details" "instructor" (pyStr (pgetOpt params "courseName"))
    | [] => noDataMsg "consultation details" "instructor" (pyStr (pgetOpt params "courseName"))
  | none => noDataMsg "consultation details" "instructor" (pyStr (pgetOpt params "courseName"))

/-- Query 28, `query_instructor_office`. -/
def query_instructor_office (g : Graph) (params : Params) : String :=
  match get_course g (pgetStr params "courseName") with
  | some course =>
    match relOf course "hasInstructorDetails" with
    | instructor :: _ =>
      if truthy (getAttrV instructor "Office") then
        "Office location: " ++ pyStr (getAttrV instructor "Office")
      else noDataMsg "office location" "instructor" (pyStr (pgetOpt params "courseName"))
    | [] => noDataMsg "office location" "instructor" (pyStr (pgetOpt params "courseName"))
  | none => noDataMsg "office location" "instructor" (pyStr (pgetOpt params "courseName"))

/-- Query 29, `query_courses_by_instructor_in_program`. -/
def query_courses_by_instructor_in_program (g : Graph) (params : Params) : String :=
  let instructor_name := pgetStr params "instructorName"
  let program_param := sanitize_id (pgetStr params "program")
  match get_instructor g instructor_name with
  | some inst =>
    let courses_found := courseTitles ((relOf inst "teachesCourse").filter (fun course =>
      match relOf course "belongsToTerm" with
      | term :: _ =>
        match relOf term "belongsToProgram" with
        | prog :: _ => substrB program_param (nodeNameOf prog)
        | [] => false
      | [] => false))
    match courses_found with
    | [] => noDataMsg "courses" "instructor" instructor_name
    | c :: cs =>
      "Courses taught by " ++ instructor_name ++ " in " ++ pyStr (pgetOpt params "program") ++
        ": " ++ joinWith ", " (c :: cs) ++ "."
  | none => notFoundMsg "instructor" instructor_name

/-- Query 30, `query_full_session_plan`: sort by `int(x.Session)` when every
ordinal converts (any failure raises inside `sorted` and the except keeps the
stored order), drop sessions with falsy or sentinel topics, render one line
per remaining session. -/
def query_full_session_plan (g : Graph) (params : Params) : String :=
  match get_course g (pgetStr params "courseName") with
  | some course =>
    match relOf course "hasSessionPlan" with
    | [] => noDataMsg "session plan" "course" (pyStr (pgetOpt params "courseName"))
    | p :: ps =>
      let sessions :=
        if (p :: ps).all (fun x => (pyToInt? (getAttrV x "Session")).isSome) then
          sortByKey (fun x => (pyToInt? (getAttrV x "Session")).getD 0) (p :: ps)
        else p :: ps
      let topics := sessions.filterMap (fun s =>
        if truthy (getAttrV s "Topic") && !(pyStr (getAttrV s "Topic") == "NA") then
          some ("Session " ++ pyStr (getAttrV s "Session") ++ ": " ++
            pyStr (getAttrV s "Module") ++ " - " ++ pyStr (getAttrV s "Topic") ++
            " (Materials: " ++ pyStr (getAttrV s "ReadingMaterial") ++ ")")
        else none)
      match topics with
      | [] => noDataMsg "session plan" "course" (pyStr (pgetOpt params "courseName"))
      | t :: ts => "Course topics:\n" ++ joinWith "\n" (t :: ts)
  | none => noDataMsg "session plan" "course" (pyStr (pgetOpt params "courseName"))

/-- A fulfillment handler; `none` models an exception escaping the handler to
the webhook's outermost catch-all. -/
abbrev Handler := Graph → Params → Option String

def hGetCourseCredits : Handler := fun g p =>
  some (handle_standard_query g p "hasCourseMetadata.CourseCredit" "credit information" "course")

def hGetCourseType : Handler := fun g p =>
  some (handle_standard_query g p "hasCourseMetadata.CourseType" "course type" "course")

def hGetPrerequisites : Handler := fun g p =>
  some (handle_standard_query g p "hasCourseMetadata.Prerequisites" "prerequisites" "course")

def hGetSessionDuration : Handler := fun g p =>
  some (handle_standard_query g p "hasCourseMetadata.SessionDuration" "session duration" "course")

def hGetTotalSessions : Handler := fun g p =>
  some (handle_standard_query g p "hasCourseMetadata.TotalSessions" "total sessions" "course")

def hGetCourseOverview : Handler := fun g p =>
  some (handle_standard_query g p "hasBasicInfo.Introduction" "course overview" "course")

def hGetLearningOutcomes : Handler := fun g p =>
  some (handle_standard_query g p "hasBasicInfo.LearningOutcomes" "learning outcomes" "course")

def hGetPedagogy : Handler := fun g p =>
  some (handle_standard_query g p "hasBasicInfo.PedagogyUsed" "pedagogy information" "course")

def hGetInstructorForCourse : Handler := fun g p =>
  handle_list_query g p "hasInstructorDetails" "instructors"
    (some (fun i => get_nested_property i "Instructors"))

def hGetInstructorContact : Handler := fun g p =>
  some (handle_standard_query g p "hasInstructorDetails.ContactDetails" "contact details" "course")

def hGetContactInstructor : Handler := fun g p => some (query_contact_instructor g p)

def hGetCoursesByInstructor : Handler := fun g p => some (query_courses_by_instructor g p)

def hGetCourseTopics : Handler := fun g p =>
  handle_list_query g p "hasSessionPlan" "topics"
    (some (fun s => .vstr ("Session " ++ pyStr (getAttrV s "Session") ++ ": " ++
      pyStr (getAttrV s "Module") ++ " - " ++ pyStr (getAttrV s "Topic"))))

/-- Dispatch entry for GetSessionInfo: a standard query on the dynamically
built path `f"hasSessionPlan.{p.get('sessionNumber')}"` (it does not invoke
`query_session_info`). -/
def hGetSessionInfo : Handler := fun g p =>
  some (handle_standard_query g p ("hasSessionPlan." ++ pyStr (pgetOpt p "sessionNumber"))
    "session info" "course")

def hGetFullSessionPlan : Handler := fun g p => some (query_full_session_plan g p)

def hGetAssessmentTools : Handler := fun g p =>
  handle_list_query g p "hasAssessment" "assessment tools"
    (some (fun a => getAttrV a "AssessmentTool"))

def hGetAssessmentPercentage : Handler := fun g p => some (query_assessment_percentage g p)

def hGetAssessmentDetails : Handler := fun g p => some (query_assessment_details_full g p)

def hGetHighestAssessmentTool : Handler := fun g p => some (query_highest_assessment_tool g p)

def hGetYearBatch : Handler := fun g p => some (query_year_batch g p)

def hGetSections : Handler := fun g p => some (query_sections g p)

def hGetProgramForCourse : Handler := fun g p => some (query_program_for_course g p)

def hGetTermForCourseProgram : Handler := fun g p => some (query_term_for_course_program g p)

def hGetCoursesInProgramTerm : Handler := fun g p => some (query_courses_in_program_term g p)

def hGetInstructorsInProgramTerm : Handler := fun g p =>
  some (query_instructors_in_program_term g p)

def hGetInstructorOffice : Handler := fun g p => some (query_instructor_office g p)

def hGetCoursesByInstructorInProgram : Handler := fun g p =>
  some (query_courses_by_instructor_in_program g p)

def hGetConsultationContact : Handler := fun g p => some (query_consultation_contact g p)

/-- INTENT_HANDLERS: the static dispatch mapping from intent display name to
handler, with exactly the source's 28 entries. -/
def INTENT_HANDLERS : List (String × Handler) := [
  ("GetCourseCredits", hGetCourseCredits),
  ("GetCourseType", hGetCourseType),
  ("GetPrerequisites", hGetPrerequisites),
  ("GetSessionDuration", hGetSessionDuration),
  ("GetTotalSessions", hGetTotalSessions),
  ("GetCourseOverview", hGetCourseOverview),
  ("GetLearningOutcomes", hGetLearningOutcomes),
  ("GetPedagogy", hGetPedagogy),
  ("GetInstructorForCourse", hGetInstructorForCourse),
  ("GetInstructorContact", hGetInstructorContact),
  ("GetContactInstructor", hGetContactInstructor),
  ("GetCoursesByInstructor", hGetCoursesByInstructor),
  ("GetCourseTopics", hGetCourseTopics),
  ("GetSessionInfo", hGetSessionInfo),
  ("GetFullSessionPlan", hGetFullSessionPlan),
  ("GetAssessmentTools", hGetAssessmentTools),
  ("GetAssessmentPercentage", hGetAssessmentPercentage),
  ("GetAssessmentDetails", hGetAssessmentDetails),
  ("GetHighestAssessmentTool", hGetHighestAssessmentTool),
  ("GetYearBatch", hGetYearBatch),
  ("GetSections", hGetSections),
  ("GetProgramForCourse", hGetProgramForCourse),
  ("GetTermForCourseProgram", hGetTermForCourseProgram),
  ("GetCoursesInProgramTerm", hGetCoursesInProgramTerm),
  ("GetInstructorsInProgramTerm", hGetInstructorsInProgramTerm),
  ("GetInstructorOffice", hGetInstructorOffice),
  ("GetCoursesByInstructorInProgram", hGetCoursesByInstructorInProgram),
  ("GetConsultationContact", hGetConsultationContact)]

/-- An inbound output-context entry: the `parameters` member may be absent. -/
structure InCtx : Type where
  name : String
  ctxParams : Option Params

/-- The request fields the webhook reads from `queryResult`. -/
structure WebhookReq : Type where
  intent : String
  params : Params
  contexts : List InCtx

/-- An outbound pagination context. -/
structure OutCtx : Type where
  name : String
  lifespanCount : Nat
  page : PyVal
  originalQuery : Params

/-- The webhook's JSON reply. -/
structure WebhookResp : Type where
  fulfillmentText : String
  outputContexts : List OutCtx

/-- Page value extracted from the first context having a `parameters` member
that contains a `page` key; `0` when none does. -/
def findPageVal (contexts : List InCtx) : PyVal :=
  match contexts.find? (fun c =>
      match c.ctxParams with
      | some ps => containsKey ps "page"
      | none => false) with
  | some c =>
    match c.ctxParams with
    | some ps => (ps.lookup "page").getD (.vint 0)
    | none => .vint 0
  | none => .vint 0

/-- The `webhook` endpoint body: extract the page cursor, store it in the
parameters, dispatch on the intent (an unknown intent answers with the fixed
unsupported message and no output context), and on success emit the pagination
context with lifespan 5; a handler exception is converted to the generic
apologetic message by the outermost catch-all. -/
def webhook (g : Graph) (req : WebhookReq) : WebhookResp :=
  let page := findPageVal req.contexts
  let params := setParam req.params "page" page
  match INTENT_HANDLERS.lookup req.intent with
  | none => ⟨"This query type is not supported yet.", []⟩
  | some h =>
    match h g params with
    | some response_text =>
      ⟨response_text,
        [⟨"projects/$\x7bprojectId\x7d/agent/sessions/$\x7bsessionId\x7d/contexts/pagination",
          5, pget params "page" (.vint 0), params⟩]⟩
    | none => ⟨"Sorry, I encountered an error processing your request.", []⟩

/-- The `lru_cache` on `get_course`: an association list in most-recent-first
order, capacity 100. -/
abbrev CourseCache := List (String × Option PyVal)

def cacheLookup (cache : CourseCache) (k : String) : Option (Option PyVal) :=
  (cache.find? (fun e => e.fst == k)).map (fun e => e.snd)

/-- A cache hit moves the entry to the front (most recently used). -/
def cacheTouch (cache : CourseCache) (k : String) : CourseCache :=
  match cache.find? (fun e => e.fst == k) with
  | some e => e :: cache.filter (fun e2 => !(e2.fst == k))
  | none => cache

/-- A cache miss inserts the freshly computed entry, evicting the least
recently used entry beyond the capacity. -/
def cacheInsert (cache : CourseCache) (k : String) (v : Option PyVal) (cap : Nat) : CourseCache :=
  ((k, v) :: cache).take cap

/-- `get_course` through its memoization layer, returning the result and the
updated cache state. -/
def get_course_cached (g : Graph) (cache : CourseCache) (k : String) :
    Option PyVal × CourseCache :=
  match cacheLookup cache k with
  | some v => (v, cacheTouch cache k)
  | none => (get_course g k, cacheInsert cache k (get_course g k) 100)

/-- Cache well-formedness: every stored entry is the uncached result for its
raw key (the graph is immutable for the process lifetime). -/
def CacheWF (g : Graph) (cache : CourseCache) : Prop :=
  ∀ e ∈ cache, e.snd = get_course g e.fst

/-- Fixture: metadata of a course "Databases 101" with `CourseCredit = "4"`. -/
def metaDB : PyVal := .vnode "databases_101_meta" "CourseMetadata" [("CourseCredit", .vstr "4")]

def courseDB : PyVal := .vnode "databases_101" "Course" [("hasCourseMetadata", .vlist [metaDB])]

def exGraph1 : Graph := [courseDB]

def exParams1 : Params := [("courseName", .vstr "Databases 101")]

def exParamsUnknown : Params := [("courseName", .vstr "Unknown Course")]

/-- Fixture: a node whose property value is the list `["NA"]`. -/
def naListNode : PyVal := .vnode "x" "T" [("P", .vlist [.vstr "NA"])]

/-- Fixture: a node whose property value is the scalar `"NA"`. -/
def naScalarNode : PyVal := .vnode "y" "T" [("P", .vstr "NA")]

/-- Fixture: session plans for claim C3. -/
def sp1 : PyVal := .vnode "sp1" "SessionPlan"
  [("Session", .vstr "1"), ("Module", .vstr "M1"), ("Topic", .vstr "T1"),
   ("ReadingMaterial", .vstr "R1")]

def sp2 : PyVal := .vnode "sp2" "SessionPlan"
  [("Session", .vstr "2"), ("Module", .vstr "M2"), ("Topic", .vstr "T2"),
   ("ReadingMaterial", .vstr "R2")]

def courseDB3 : PyVal := .vnode "databases_101" "Course" [("hasSessionPlan", .vlist [sp1, sp2])]

def exGraph3 : Graph := [courseDB3]

def exParams3 : Params := [("courseName", .vstr "Databases 101"), ("sessionNumber", .vstr "2")]

/-- Fixture: the four assessments of the spec's aggregation example. -/
def asmtQuiz : PyVal := .vnode "a1" "Assessment"
  [("AssessmentTool", .vstr "Quiz"), ("Percentage", .vstr "20%")]

def asmtMidterm : PyVal := .vnode "a2" "Assessment"
  [("AssessmentTool", .vstr "Midterm"), ("Percentage", .vstr "30%")]

def asmtEssay : PyVal := .vnode "a3" "Assessment"
  [("AssessmentTool", .vstr "Essay"), ("Percentage", .vstr "abc")]

def asmtProject : PyVal := .vnode "a4" "Assessment"
  [("AssessmentTool", .vstr "Project"), ("Percentage", .vstr "50.5%")]

def exAsmts : List PyVal := [asmtQuiz, asmtMidterm, asmtEssay, asmtProject]

def courseAlg : PyVal := .vnode "algorithms" "Course" [("hasAssessment", .vlist exAsmts)]

def exGraph5 : Graph := [courseAlg]

def exParams5 : Params := [("courseName", .vstr "Algorithms")]

/-- Fixture: a course with four list items for the pagination claim. -/
def item1 : PyVal := .vnode "t1" "X" []

def item2 : PyVal := .vnode "t2" "X" []

def item3 : PyVal := .vnode "t3" "X" []

def item4 : PyVal := .vnode "t4" "X" []

def courseList : PyVal := .vnode "listcourse" "Course"
  [("hasThings", .vlist [item1, item2, item3, item4])]

def exGraph6 : Graph := [courseList]

def exParams6 : Params := [("courseName", .vstr "Listcourse"), ("page", .vint 5)]

/-- Fixture: a course whose identifier contains an underscore. -/
def nodeAB : PyVal := .vnode "a_b" "Course" []

def exGraph7 : Graph := [nodeAB]

/-- Fixture: a course with identifier "ai", and a 51-character raw name (49
spaces then "ai") that fails validation yet normalizes to "ai". -/
def nodeAI : PyVal := .vnode "ai" "Course" []

def exGraph8 : Graph := [nodeAI]

def longPaddedName : String := String.mk (List.replicate 49 ' ' ++ ['a', 'i'])

/-- Fixture: a request with an intent absent from the dispatch table. -/
def exReq9 : WebhookReq :=
  ⟨"GetSomethingWeird", [("courseName", .vstr "X")], [⟨"ctx", some [("page", .vint 2)]⟩]⟩

/-- Fixture: an assessment storing "20%" for tool "Project". -/
def asmtStored : PyVal := .vnode "ap" "Assessment"
  [("AssessmentTool", .vstr "Project"), ("Percentage", .vstr "20%")]

def courseWeb : PyVal := .vnode "webdev" "Course" [("hasAssessment", .vlist [asmtStored])]

def exGraph10 : Graph := [courseWeb]

def exParams10 : Params := [("courseName", .vstr "Webdev"), ("assessmentTool", .vstr "pRoJeCt")]

/-- C1 (counterexample): for the course "Databases 101" whose `CourseCredit`
metadata value is the string "4", the `GetCourseCredits` intent dispatched
through the standard-query routine answers with the bare stringified value
"4", not with "4 credits." as the claim states. -/
theorem getCourseCredits_claim_counterexample :
    get_nested_property courseDB "hasCourseMetadata.CourseCredit" = PyVal.vstr "4" ∧
    INTENT_HANDLERS.lookup "GetCourseCredits" = some hGetCourseCredits ∧
    hGetCourseCredits exGraph1 exParams1 = some "4" ∧
    ("4" : String) ≠ "4 credits." :=
  ⟨rfl, rfl, rfl, by decide⟩

/-- C1 (amended): for the intent GetCourseCredits dispatched through the
standard-query routine, a course whose `CourseCredit` metadata value is the
string "4" is answered with the stringified value "4"; a course name that does
not resolve is answered with the not_found template instantiated with
entity="course" and the given name. -/
theorem getCourseCredits_standard_query_spec :
    INTENT_HANDLERS.lookup "GetCourseCredits" = some hGetCourseCredits ∧
    (∀ (g : Graph) (params : Params) (course : PyVal),
      get_course g (pgetStr params "courseName") = some course →
      get_nested_property course "hasCourseMetadata.CourseCredit" = PyVal.vstr "4" →
      handle_standard_query g params "hasCourseMetadata.CourseCredit"
        "credit information" "course" = "4") ∧
    (∀ (g : Graph) (params : Params),
      get_course g (pgetStr params "courseName") = none →
      handle_standard_query g params "hasCourseMetadata.CourseCredit"
        "credit information" "course" =
        notFoundMsg "course" (pyStr (pgetOpt params "courseName"))) := by
  refine ⟨rfl, ?_, ?_⟩
  · intro g params course h1 h2
    unfold handle_standard_query
    rw [h1]
    simp only [h2]
    rfl
  · intro g params h1
    unfold handle_standard_query
    rw [h1]

/-- C1 witness: the amended statement at the concrete fixtures. -/
theorem getCourseCredits_standard_query_spec_witness :
    handle_standard_query exGraph1 exParams1 "hasCourseMetadata.CourseCredit"
      "credit information" "course" = "4" ∧
    handle_standard_query exGraph1 exParamsUnknown "hasCourseMetadata.CourseCredit"
      "credit information" "course" = notFoundMsg "course" "Unknown Course" :=
  ⟨getCourseCredits_standard_query_spec.2.1 exGraph1 exParams1 courseDB rfl rfl,
   getCourseCredits_standard_query_spec.2.2 exGraph1 exParamsUnknown rfl⟩

/-- C2 (counterexample): when the resolved final value is the list `["NA"]`,
`get_nested_property` returns the sentinel "NA" itself, not Missing. -/
theorem na_list_head_counterexample :
    get_nested_property naListNode "P" = PyVal.vstr "NA" ∧
    PyVal.vstr "NA" ≠ PyVal.vnone :=
  ⟨rfl, fun h => PyVal.noConfusion h⟩

/-- C2 (amended): the sentinel "NA" is converted to Missing only when the
traversal's final value is the scalar "NA"; when the final value is a list
whose first element is "NA", that element is returned unchecked. -/
theorem na_sentinel_scalar_only_spec :
    ∀ (obj : PyVal) (path : String) (xs : List PyVal),
      (gnpLoop obj (pathProps path) = some (PyVal.vstr "NA") →
        get_nested_property obj path = PyVal.vnone) ∧
      (gnpLoop obj (pathProps path) = some (PyVal.vlist (PyVal.vstr "NA" :: xs)) →
        get_nested_property obj path = PyVal.vstr "NA") := by
  intro obj path xs
  constructor
  · intro h
    unfold get_nested_property
    rw [h]
    rfl
  · intro h
    unfold get_nested_property
    rw [h]
    rfl

/-- C2 witness: the amended statement at the two concrete nodes. -/
theorem na_sentinel_scalar_only_spec_witness :
    gnpLoop naScalarNode (pathProps "P") = some (PyVal.vstr "NA") ∧
    get_nested_property naScalarNode "P" = PyVal.vnone ∧
    gnpLoop naListNode (pathProps "P") = some (PyVal.vlist [PyVal.vstr "NA"]) ∧
    get_nested_property naListNode "P" = PyVal.vstr "NA" :=
  ⟨rfl, (na_sentinel_scalar_only_spec naScalarNode "P" []).1 rfl, rfl,
   (na_sentinel_scalar_only_spec naListNode "P" []).2 rfl⟩

/-- C3: the dispatch table's GetSessionInfo entry runs a standard query on the
dynamically built path `hasSessionPlan.2`, which reads an attribute literally
named "2" on the first session plan and so yields the no_data message even
though session 2 exists; the linear-scan implementation `query_session_info`
(which the dispatch never invokes) produces the claimed three-field summary on
the same input. -/
theorem getSessionInfo_dispatch_vs_scan :
    INTENT_HANDLERS.lookup "GetSessionInfo" = some hGetSessionInfo ∧
    hGetSessionInfo exGraph3 exParams3 =
      some (noDataMsg "session info" "course" "Databases 101") ∧
    query_session_info exGraph3 exParams3 = "Module: M2, Topic: T2, Materials: R2" ∧
    noDataMsg "session info" "course" "Databases 101" ≠
      "Module: M2, Topic: T2, Materials: R2" :=
  ⟨rfl, rfl, rfl, by decide⟩

/-- C4: the path resolver is a total function: for every input value and every
dotted path of one to three segments, the result is Missing or a concrete
value, with no exception and no third outcome (every partial operation in the
source body is guarded, so the enclosing try/except is unreachable). -/
theorem get_nested_property_total_dichotomy :
    ∀ (obj : PyVal) (path : String),
      1 ≤ (pathProps path).length → (pathProps path).length ≤ 3 →
      get_nested_property obj path = PyVal.vnone ∨
        ∃ v, get_nested_property obj path = v ∧ v ≠ PyVal.vnone := by
  intro obj path h1 h3
  by_cases h : get_nested_property obj path = PyVal.vnone
  · exact Or.inl h
  · exact Or.inr ⟨_, rfl, h⟩

/-- C4 witness. -/
theorem get_nested_property_total_dichotomy_witness :
    1 ≤ (pathProps "hasCourseMetadata.CourseCredit").length ∧
    (pathProps "hasCourseMetadata.CourseCredit").length ≤ 3 ∧
    (get_nested_property courseDB "hasCourseMetadata.CourseCredit" = PyVal.vnone ∨
      ∃ v, get_nested_property courseDB "hasCourseMetadata.CourseCredit" = v ∧
        v ≠ PyVal.vnone) :=
  ⟨by decide, by decide,
   get_nested_property_total_dichotomy courseDB "hasCourseMetadata.CourseCredit"
     (by decide) (by decide)⟩

/-- C9: any intent name not present in the dispatch table is answered with the
fixed unsupported message and an empty output-context list, regardless of the
supplied parameters and contexts. -/
theorem unknown_intent_fixed_response :
    ∀ (g : Graph) (req : WebhookReq),
      INTENT_HANDLERS.lookup req.intent = none →
      webhook g req = ⟨"This query type is not supported yet.", []⟩ := by
  intro g req h
  unfold webhook
  rw [h]

/-- C9 witness. -/
theorem unknown_intent_fixed_response_witness :
    INTENT_HANDLERS.lookup exReq9.intent = none ∧
    webhook exGraph1 exReq9 = ⟨"This query type is not supported yet.", []⟩ :=
  ⟨rfl, unknown_intent_fixed_response exGraph1 exReq9 rfl⟩

/-- C7 (counterexample): the underscore lies outside letters, digits,
whitespace and hyphen, yet the input "a_b" passes validation (the regex class
is `\w`, which includes the underscore) and resolves to an actual node, so the
claim's character set is too narrow. -/
theorem underscore_counterexample :
    Char.isAlphanum '_' = false ∧ pySpace '_' = false ∧ ('_' : Char) ≠ '-' ∧
    validate_input "a_b" = true ∧
    get_course exGraph7 "a_b" = some nodeAB ∧
    get_course exGraph7 "a_b" ≠ none := by
  refine ⟨by decide, by decide, by decide, by decide, rfl, ?_⟩
  intro h
  rw [show get_course exGraph7 "a_b" = some nodeAB from rfl] at h
  exact Option.noConfusion h

/-- C7 (amended): every input string that is empty, longer than 50 characters,
or contains a character outside word characters (letters, digits, underscore),
whitespace and hyphen, resolves to None in both `get_course` and
`get_instructor`, for every graph (no graph lookup can influence the result). -/
theorem invalid_input_resolves_none :
    ∀ (g : Graph) (s : String),
      (s = "" ∨ 50 < s.data.length ∨
        ∃ c ∈ s.data, (isWordChar c || pySpace c || c == '-') = false) →
      get_course g s = none ∧ get_instructor g s = none := by
  intro g s h
  have hv : validate_input s = false := by
    rcases h with h | h | ⟨c, hc, hcf⟩
    · subst h; decide
    · have hb : decide (s.data.length ≤ MAX_INPUT_LENGTH) = false := by
        simp only [decide_eq_false_iff_not, MAX_INPUT_LENGTH]
        omega
      unfold validate_input
      rw [hb]
      simp
    · have hall : s.data.all (fun c => isWordChar c || pySpace c || c == '-') = false := by
        rw [Bool.eq_false_iff]
        intro hTrue
        have := List.all_eq_true.mp hTrue c hc
        rw [hcf] at this
        exact Bool.noConfusion this
      simp [validate_input, hall]
  exact ⟨by simp [get_course, hv], by simp [get_instructor, hv]⟩

/-- C7 witness. -/
theorem invalid_input_resolves_none_witness :
    (∃ c ∈ ("abc!" : String).data, (isWordChar c || pySpace c || c == '-') = false) ∧
    get_course exGraph7 "abc!" = none ∧ get_instructor exGraph7 "abc!" = none :=
  ⟨⟨'!', by decide, by decide⟩,
   invalid_input_resolves_none exGraph7 "abc!" (Or.inr (Or.inr ⟨'!', by decide, by decide⟩))⟩

/-- C10: in `query_assessment_percentage` the requested tool is matched
case-insensitively (equality of both sides after lower-casing) against the
first assessment with a truthy `AssessmentTool`; on a match with a non-empty
stored `Percentage` string, the answer is that stored string with one "%"
appended. -/
theorem assessment_percentage_case_insensitive_append :
    ∀ (g : Graph) (params : Params) (course a : PyVal) (p : String),
      get_course g (pgetStr params "courseName") = some course →
      (relOf course "hasAssessment").find?
        (assessmentToolMatch (pgetStr params "assessmentTool")) = some a →
      getAttrV a "Percentage" = PyVal.vstr p →
      p ≠ "" →
      query_assessment_percentage g params = p ++ "%" := by
  intro g params course a p hc hfind hp hne
  have ht : truthy (PyVal.vstr p) = true := by
    simp only [truthy, Bool.not_eq_true']
    rw [Bool.eq_false_iff]
    intro hTrue
    exact hne ((String.isEmpty_iff p).mp hTrue)
  have hlne : (relOf course "hasAssessment").isEmpty = false := by
    rw [Bool.eq_false_iff]
    intro hTrue
    rw [List.isEmpty_iff.mp hTrue] at hfind
    exact Option.noConfusion hfind
  unfold query_assessment_percentage
  rw [hc]
  simp only [hlne, Bool.false_eq_true, if_false, hfind, hp, ht, if_true]
  simp [pyStr]

/-- C10 witness: a stored percentage "20%" for tool "Project", requested as
"pRoJeCt", is echoed with a doubled percent sign. -/
theorem assessment_percentage_case_insensitive_append_witness :
    lowerStr "Project" = lowerStr "pRoJeCt" ∧
    query_assessment_percentage exGraph10 exParams10 = "20%" ++ "%" ∧
    ("20%" ++ "%" : String) = "20%%" :=
  ⟨by decide,
   assessment_percentage_case_insensitive_append exGraph10 exParams10 courseWeb asmtStored
     "20%" rfl rfl rfl (by decide),
   by decide⟩

lemma cacheLookup_eq_of_wf (g : Graph) (cache : CourseCache) (k : String) (v : Option PyVal)
    (hwf : CacheWF g cache) (h : cacheLookup cache k = some v) : v = get_course g k := by
  unfold cacheLookup at h
  cases hf : cache.find? (fun e => e.fst == k) with
  | none => rw [hf] at h; exact Option.noConfusion h
  | some e =>
    rw [hf] at h
    have hv : e.snd = v := Option.some.inj h
    have hmem : e ∈ cache := List.mem_of_find?_eq_some hf
    have hkey : (e.fst == k) = true := by simpa using List.find?_some hf
    rw [← hv, hwf e hmem, eq_of_beq hkey]

lemma cacheWF_touch (g : Graph) (cache : CourseCache) (k : String)
    (hwf : CacheWF g cache) : CacheWF g (cacheTouch cache k) := by
  unfold cacheTouch
  cases hf : cache.find? (fun e => e.fst == k) with
  | none => exact hwf
  | some e =>
    intro e2 he2
    rcases List.mem_cons.mp he2 with rfl | htail
    · exact hwf e2 (List.mem_of_find?_eq_some hf)
    · exact hwf e2 (List.mem_of_mem_filter htail)

lemma cacheWF_insert (g : Graph) (cache : CourseCache) (k : String) (cap : Nat)
    (hwf : CacheWF g cache) : CacheWF g (cacheInsert cache k (get_course g k) cap) := by
  unfold cacheInsert
  intro e he
  have he2 : e ∈ (k, get_course g k) :: cache := List.mem_of_mem_take he
  rcases List.mem_cons.mp he2 with rfl | htail
  · rfl
  · exact hwf e htail

lemma get_course_cached_correct (g : Graph) (cache : CourseCache) (k : String)
    (hwf : CacheWF g cache) :
    (get_course_cached g cache k).fst = get_course g k ∧
      CacheWF g (get_course_cached g cache k).snd := by
  unfold get_course_cached
  cases hl : cacheLookup cache k with
  | none => exact ⟨rfl, cacheWF_insert g cache k 100 hwf⟩
  | some v => exact ⟨cacheLookup_eq_of_wf g cache k v hwf hl, cacheWF_touch g cache k hwf⟩

/-- C8 (amended): `get_course` through its memoization layer is deterministic
and idempotent — on any well-formed cache state the cached lookup returns
exactly the uncached result for the raw key and preserves well-formedness, so
a repeated call returns the first call's result and the cache never serves a
node belonging to a different identifier; and for raw strings that pass input
validation, resolution factors through `sanitize_id`, so two valid raw strings
normalizing to the same identifier (such as "Intro to AI" and "intro-to-ai",
both normalizing to "intro_to_ai") resolve to the same node. -/
theorem course_cache_normalization_spec :
    (∀ (g : Graph) (cache : CourseCache) (k : String), CacheWF g cache →
      (get_course_cached g cache k).fst = get_course g k ∧
        CacheWF g (get_course_cached g cache k).snd) ∧
    (∀ (g : Graph) (cache : CourseCache) (k : String), CacheWF g cache →
      (get_course_cached g (get_course_cached g cache k).snd k).fst =
        (get_course_cached g cache k).fst) ∧
    (∀ (g : Graph) (s t : String), validate_input s = true → validate_input t = true →
      sanitize_id s = sanitize_id t → get_course g s = get_course g t) ∧
    sanitize_id "Intro to AI" = "intro_to_ai" ∧ sanitize_id "intro-to-ai" = "intro_to_ai" := by
  refine ⟨fun g cache k hwf => get_course_cached_correct g cache k hwf, ?_, ?_, by decide, by decide⟩
  · intro g cache k hwf
    obtain ⟨h1, hwf2⟩ := get_course_cached_correct g cache k hwf
    obtain ⟨h2, _⟩ := get_course_cached_correct g (get_course_cached g cache k).snd k hwf2
    rw [h1, h2]
  · intro g s t hs ht hst
    unfold get_course
    rw [hs, ht, hst]

/-- C8 (counterexample): a raw string that fails validation can normalize to
the same identifier as a valid one yet resolve differently — 49 spaces
followed by "ai" (51 characters, rejected) normalizes to "ai" but resolves to
None while "ai" resolves to a node, so the claim's unconditional factoring
through normalization fails. -/
theorem normalization_without_validation_counterexample :
    sanitize_id longPaddedName = sanitize_id "ai" ∧
    validate_input longPaddedName = false ∧
    get_course exGraph8 longPaddedName = none ∧
    get_course exGraph8 "ai" = some nodeAI ∧
    get_course exGraph8 longPaddedName ≠ get_course exGraph8 "ai" := by
  refine ⟨by decide, by decide, rfl, rfl, ?_⟩
  intro h
  rw [show get_course exGraph8 longPaddedName = none from rfl,
    show get_course exGraph8 "ai" = some nodeAI from rfl] at h
  exact Option.noConfusion h

/-- C8 witness. -/
theorem course_cache_normalization_spec_witness :
    (get_course_cached exGraph8 [] "ai").fst = get_course exGraph8 "ai" ∧
    get_course exGraph8 "Intro to AI" = get_course exGraph8 "intro-to-ai" ∧
    sanitize_id "Intro to AI" = "intro_to_ai" := by
  have H := course_cache_normalization_spec
  exact ⟨(H.1 exGraph8 [] "ai" (fun e he => absurd he (List.not_mem_nil e))).1,
    H.2.2.1 exGraph8 "Intro to AI" "intro-to-ai" (by decide) (by decide) (by decide),
    H.2.2.2.1⟩

lemma paginate_items_length (l : List PyVal) :
    (paginate_items l).length = (l.length + 2) / 3 := by
  induction l using paginate_items.induct with
  | case1 => rfl
  | case2 a => simp [paginate_items]
  | case3 a b => simp [paginate_items]
  | case4 a b c rest ih => simp only [paginate_items, List.length_cons, ih]; omega

lemma paginate_items_flatten (l : List PyVal) : (paginate_items l).flatten = l := by
  induction l using paginate_items.induct with
  | case1 => rfl
  | case2 a => simp [paginate_items]
  | case3 a b => simp [paginate_items]
  | case4 a b c rest ih => simp only [paginate_items, List.flatten_cons, ih]; rfl

lemma paginate_items_ne_nil (l : List PyVal) (h : l ≠ []) : paginate_items l ≠ [] := by
  induction l using paginate_items.induct with
  | case1 => exact absurd rfl h
  | case2 a => simp [paginate_items]
  | case3 a b => simp [paginate_items]
  | case4 a b c rest ih => simp [paginate_items]

lemma paginate_items_sizes (l : List PyVal) :
    ∀ (i : Nat) (h : i < (paginate_items l).length),
      0 < ((paginate_items l).get ⟨i, h⟩).length ∧
      ((paginate_items l).get ⟨i, h⟩).length ≤ 3 ∧
      (i + 1 < (paginate_items l).length → ((paginate_items l).get ⟨i, h⟩).length = 3) := by
  induction l using paginate_items.induct with
  | case1 => intro i h; simp [paginate_items] at h
  | case2 a =>
    intro i h
    simp [paginate_items] at h
    subst h
    refine ⟨by simp [paginate_items], by simp [paginate_items], ?_⟩
    intro hcon
    simp [paginate_items] at hcon
  | case3 a b =>
    intro i h
    simp [paginate_items] at h
    subst h
    refine ⟨by simp [paginate_items], by simp [paginate_items], ?_⟩
    intro hcon
    simp [paginate_items] at hcon
  | case4 a b c rest ih =>
    intro i h
    cases i with
    | zero =>
      exact ⟨by simp [paginate_items], by simp [paginate_items], fun _ => by simp [paginate_items]⟩
    | succ j =>
      have hj : j < (paginate_items rest).length := by
        simp [paginate_items] at h; omega
      refine ⟨?_, ?_, ?_⟩
      · simpa [paginate_items] using (ih j hj).1
      · simpa [paginate_items] using (ih j hj).2.1
      · intro hs
        have hjs : j + 1 < (paginate_items rest).length := by
          simp [paginate_items] at hs; omega
        simpa [paginate_items] using (ih j hj).2.2 hjs

/-- C6: pagination partitions the item list into ceil(N/3) consecutive chunks
of size 3 except possibly the last; the requested page index (including
negative and too-large values) is clamped into [0, pageCount-1]; the footer is
appended exactly when more than one page exists and reports the clamped
current page and the actual chunk count; an empty item list makes the
list-query routine emit the no_data message instead of paginating. -/
theorem list_query_pagination_spec :
    ∀ (g : Graph) (params : Params) (path itemsName : String)
      (fmt : Option (PyVal → PyVal)) (course : PyVal) (page : Int)
      (items : List PyVal) (pages : List (List PyVal)) (pc : Int),
      get_course g (pgetStr params "courseName") = some course →
      pget params "page" (PyVal.vint 0) = PyVal.vint page →
      items = listQueryItems course path fmt →
      pages = paginate_items items →
      pc = max 0 (min page ((pages.length : Int) - 1)) →
      (pages.length = (items.length + 2) / 3 ∧
       pages.flatten = items ∧
       (∀ (i : Nat) (h : i < pages.length),
         0 < (pages.get ⟨i, h⟩).length ∧ (pages.get ⟨i, h⟩).length ≤ 3 ∧
         (i + 1 < pages.length → (pages.get ⟨i, h⟩).length = 3)) ∧
       (items = [] → handle_list_query g params path itemsName fmt =
          some (noDataMsg itemsName "course" (pyStr (pgetOpt params "courseName")))) ∧
       (items ≠ [] →
         0 ≤ pc ∧ pc ≤ (pages.length : Int) - 1 ∧
         handle_list_query g params path itemsName fmt =
           some (joinWith "\n" ((pages.getD pc.toNat []).map pyStr) ++
             (if 1 < pages.length then paginationMsg (pc.toNat + 1) pages.length else "")))) := by
  intro g params path itemsName fmt course page items pages pc hc hpage hitems hpages hpc
  subst hitems
  subst hpages
  subst hpc
  refine ⟨paginate_items_length _, paginate_items_flatten _, paginate_items_sizes _, ?_, ?_⟩
  · intro hempty
    simp only [handle_list_query, hc, hpage, hempty]
    rfl
  · intro hne
    have hpagesne : paginate_items (listQueryItems course path fmt) ≠ [] :=
      paginate_items_ne_nil _ hne
    have hlen : 0 < (paginate_items (listQueryItems course path fmt)).length :=
      List.length_pos.mpr hpagesne
    have hlen1 : (1 : Int) ≤ ((paginate_items (listQueryItems course path fmt)).length : Int) := by
      exact_mod_cast hlen
    refine ⟨le_max_left _ _, max_le (by omega) (min_le_right _ _), ?_⟩
    have hisempty : (paginate_items (listQueryItems course path fmt)).isEmpty = false := by
      rw [Bool.eq_false_iff]
      intro hT
      exact hpagesne (List.isEmpty_iff.mp hT)
    simp only [handle_list_query, hc, hpage, pyToInt?, hisempty, Bool.false_eq_true, if_false]
    congr 1
    by_cases hgt : 1 < (paginate_items (listQueryItems course path fmt)).length
    · simp [hgt]
    · simp [hgt]

/-- C6 witness: four items, page size 3, requested page 5 clamped to the last
page (index 1), footer reporting page 2 of 2. -/
theorem list_query_pagination_spec_witness :
    handle_list_query exGraph6 exParams6 "hasThings" "things" none =
      some ("t4" ++ paginationMsg 2 2) ∧
    (paginate_items (listQueryItems courseList "hasThings" none)).length = 2 := by
  have H := list_query_pagination_spec exGraph6 exParams6 "hasThings" "things" none courseList 5
    (listQueryItems courseList "hasThings" none)
    (paginate_items (listQueryItems courseList "hasThings" none))
    (max 0 (min 5
      (((paginate_items (listQueryItems courseList "hasThings" none)).length : Int) - 1)))
    rfl rfl rfl rfl rfl
  have hne : listQueryItems courseList "hasThings" none ≠ [] := by
    intro h
    exact absurd (congrArg List.length h) (by decide)
  obtain ⟨-, -, -, -, hmain⟩ := H
  obtain ⟨-, -, heq⟩ := hmain hne
  constructor
  · rw [heq]
    rfl
  · rfl

lemma dval_lt_iff (x y : DecNum) : dval y < dval x ↔ decGTP x y := by
  unfold dval decGTP
  rw [div_lt_div_iff₀ (by positivity) (by positivity)]
  constructor
  · intro h
    exact_mod_cast h
  · intro h
    exact_mod_cast h

lemma le_dval_of_not_gt {x y : DecNum} (h : ¬ decGTP x y) : dval x ≤ dval y := by
  rw [← dval_lt_iff] at h
  exact not_lt.mp h

lemma bestStep_none_parse {acc : Option (DecNum × PyVal)} {a : PyVal}
    (h : parsedOf a = none) : bestStep acc a = acc := by
  unfold bestStep
  rw [h]

lemma bestStep_some_none {a : PyVal} {q : DecNum} (h : parsedOf a = some q) :
    bestStep none a = some (q, getAttrV a "AssessmentTool") := by
  unfold bestStep
  rw [h]

lemma bestStep_some_some {a : PyVal} {q : DecNum} {b : DecNum × PyVal}
    (h : parsedOf a = some q) :
    bestStep (some b) a =
      if decGTP q b.fst then some (q, getAttrV a "AssessmentTool") else some b := by
  unfold bestStep
  rw [h]

lemma foldl_bestStep_filter :
    ∀ (l : List PyVal) (acc : Option (DecNum × PyVal)),
      (l.filter (fun a => (parsedOf a).isSome)).foldl bestStep acc = l.foldl bestStep acc := by
  intro l
  induction l with
  | nil => intro acc; rfl
  | cons a l ih =>
    intro acc
    cases hp : parsedOf a with
    | none =>
      rw [List.filter_cons]
      simp only [hp, Option.isSome_none, Bool.false_eq_true, if_false]
      rw [List.foldl_cons, bestStep_none_parse hp]
      exact ih acc
    | some q =>
      rw [List.filter_cons]
      simp only [hp, Option.isSome_some, if_true]
      rw [List.foldl_cons, List.foldl_cons]
      exact ih _

lemma foldl_bestStep_mono :
    ∀ (l : List PyVal) (b : DecNum × PyVal),
      ∃ p t, l.foldl bestStep (some b) = some (p, t) ∧ dval b.fst ≤ dval p := by
  intro l
  induction l with
  | nil => intro b; exact ⟨b.fst, b.snd, rfl, le_refl _⟩
  | cons a l ih =>
    intro b
    rw [List.foldl_cons]
    cases hp : parsedOf a with
    | none =>
      rw [bestStep_none_parse hp]
      exact ih b
    | some q =>
      rw [bestStep_some_some hp]
      by_cases hgt : decGTP q b.fst
      · rw [if_pos hgt]
        obtain ⟨p, t, heq, hle⟩ := ih (q, getAttrV a "AssessmentTool")
        exact ⟨p, t, heq, le_trans (le_of_lt ((dval_lt_iff q b.fst).mpr hgt)) hle⟩
      · rw [if_neg hgt]
        exact ih b

lemma foldl_bestStep_ge (l : List PyVal) (b : DecNum × PyVal) (p : DecNum) (t : PyVal)
    (h : l.foldl bestStep (some b) = some (p, t)) : dval b.fst ≤ dval p := by
  obtain ⟨p2, t2, heq, hle⟩ := foldl_bestStep_mono l b
  rw [heq] at h
  have hfst : p2 = p := congrArg Prod.fst (Option.some.inj h)
  rwa [hfst] at hle

lemma foldl_bestStep_bound :
    ∀ (l : List PyVal) (acc : Option (DecNum × PyVal)) (p : DecNum) (t : PyVal),
      l.foldl bestStep acc = some (p, t) →
      ∀ b ∈ l, ∀ q, parsedOf b = some q → dval q ≤ dval p := by
  intro l
  induction l with
  | nil => intro acc p t hfold b hb; exact absurd hb (List.not_mem_nil b)
  | cons a l ih =>
    intro acc p t hfold b hb q hq
    rw [List.foldl_cons] at hfold
    rcases List.mem_cons.mp hb with rfl | hbtail
    · cases acc with
      | none =>
        rw [bestStep_some_none hq] at hfold
        exact foldl_bestStep_ge l _ p t hfold
      | some b0 =>
        rw [bestStep_some_some hq] at hfold
        by_cases hgt : decGTP q b0.fst
        · rw [if_pos hgt] at hfold
          exact foldl_bestStep_ge l _ p t hfold
        · rw [if_neg hgt] at hfold
          exact le_trans (le_dval_of_not_gt hgt) (foldl_bestStep_ge l b0 p t hfold)
    · exact ih (bestStep acc a) p t hfold b hbtail q hq

lemma foldl_bestStep_first :
    ∀ (l : List PyVal) (acc : Option (DecNum × PyVal)) (p : DecNum) (t : PyVal),
      l.foldl bestStep acc = some (p, t) →
      acc = some (p, t) ∨
        ∃ l1 a l2, l = l1 ++ a :: l2 ∧ parsedOf a = some p ∧
          getAttrV a "AssessmentTool" = t ∧
          (∀ q0 t0, acc = some (q0, t0) → dval q0 < dval p) ∧
          (∀ b ∈ l1, ∀ q, parsedOf b = some q → dval q < dval p) := by
  intro l
  induction l with
  | nil => intro acc p t h; exact Or.inl h
  | cons a l ih =>
    intro acc p t hfold
    rw [List.foldl_cons] at hfold
    rcases ih (bestStep acc a) p t hfold with hacc | ⟨l1, a2, l2, hsplit, hp2, ht2, haccCond, hl1⟩
    · cases hp : parsedOf a with
      | none =>
        rw [bestStep_none_parse hp] at hacc
        exact Or.inl hacc
      | some q =>
        cases acc with
        | none =>
          rw [bestStep_some_none hp] at hacc
          have hpair := Option.some.inj hacc
          have hq : q = p := congrArg Prod.fst hpair
          have ht : getAttrV a "AssessmentTool" = t := congrArg Prod.snd hpair
          refine Or.inr ⟨[], a, l, rfl, hq ▸ hp, ht, ?_, ?_⟩
          · intro q0 t0 hcon
            exact Option.noConfusion hcon
          · intro b hb
            exact absurd hb (List.not_mem_nil b)
        | some b0 =>
          rw [bestStep_some_some hp] at hacc
          by_cases hgt : decGTP q b0.fst
          · rw [if_pos hgt] at hacc
            have hpair := Option.some.inj hacc
            have hq : q = p := congrArg Prod.fst hpair
            have ht : getAttrV a "AssessmentTool" = t := congrArg Prod.snd hpair
            subst hq
            refine Or.inr ⟨[], a, l, rfl, hp, ht, ?_, ?_⟩
            · intro q0 t0 hcon
              have hb0 : b0 = (q0, t0) := Option.some.inj hcon
              have hlt : dval b0.fst < dval q := (dval_lt_iff q b0.fst).mpr hgt
              rw [hb0] at hlt
              exact hlt
            · intro b hb
              exact absurd hb (List.not_mem_nil b)
          · rw [if_neg hgt] at hacc
            exact Or.inl hacc
    · right
      refine ⟨a :: l1, a2, l2, by rw [hsplit, List.cons_append], hp2, ht2, ?_, ?_⟩
      · intro q0 t0 hcon
        cases hp : parsedOf a with
        | none =>
          refine haccCond q0 t0 ?_
          rw [bestStep_none_parse hp]
          exact hcon
        | some q =>
          by_cases hgt : decGTP q q0
          · have hstep : bestStep acc a = some (q, getAttrV a "AssessmentTool") := by
              rw [hcon, bestStep_some_some hp]
              exact if_pos hgt
            have h1 : dval q < dval p := haccCond q _ hstep
            have h2 : dval q0 < dval q := (dval_lt_iff q q0).mpr hgt
            exact lt_trans h2 h1
          · have hstep : bestStep acc a = some (q0, t0) := by
              rw [hcon, bestStep_some_some hp]
              exact if_neg hgt
            exact haccCond q0 t0 hstep
      · intro b hb q hq
        rcases List.mem_cons.mp hb with rfl | hbtail
        · cases acc with
          | none =>
            exact haccCond q _ (bestStep_some_none hq)
          | some b0 =>
            by_cases hgt : decGTP q b0.fst
            · have hstep : bestStep (some b0) b = some (q, getAttrV b "AssessmentTool") := by
                rw [bestStep_some_some hq]
                exact if_pos hgt
              exact haccCond q _ hstep
            · have hstep : bestStep (some b0) b = some (b0.fst, b0.snd) := by
                rw [bestStep_some_some hq]
                exact if_neg hgt
              have h1 : dval b0.fst < dval p := haccCond b0.fst b0.snd hstep
              exact lt_of_le_of_lt (le_dval_of_not_gt hgt) h1
        · exact hl1 b hbtail q hq

/-- C5: the highest-weighted-assessment resolver scans the assessments in
order; entries whose `Percentage` yields no match of `\d+\.?\d*` are skipped
(removing them does not change the result), the selected pair carries the
maximal extracted number, and on ties the first-encountered assessment wins
(every parseable entry strictly before the winner is strictly smaller).  For
the percentages ["20%", "30%", "abc", "50.5%"] the value 50.5 (the decimal
505/10^1, of rational value 101/2) on tool "Project" is selected. -/
theorem highest_assessment_tool_spec :
    (∀ l : List PyVal,
      highestAssessment (l.filter (fun a => (parsedOf a).isSome)) = highestAssessment l) ∧
    (∀ (l : List PyVal) (p : DecNum) (t : PyVal),
      highestAssessment l = some (p, t) →
      (∀ a ∈ l, ∀ q, parsedOf a = some q → dval q ≤ dval p) ∧
      ∃ l1 a l2, l = l1 ++ a :: l2 ∧ parsedOf a = some p ∧
        getAttrV a "AssessmentTool" = t ∧
        ∀ b ∈ l1, ∀ q, parsedOf b = some q → dval q < dval p) ∧
    highestAssessment exAsmts = some (⟨505, 1⟩, PyVal.vstr "Project") ∧
    dval ⟨505, 1⟩ = 101 / 2 ∧
    query_highest_assessment_tool exGraph5 exParams5 =
      "Highest weighted assessment tool: Project (50.5%)." := by
  refine ⟨fun l => foldl_bestStep_filter l none, ?_, rfl, ?_, rfl⟩
  · intro l p t h
    refine ⟨foldl_bestStep_bound l none p t h, ?_⟩
    rcases foldl_bestStep_first l none p t h with hcon | ⟨l1, a, l2, hsplit, hp, ht, _, hl1⟩
    · exact Option.noConfusion hcon
    · exact ⟨l1, a, l2, hsplit, hp, ht, hl1⟩
  · unfold dval
    norm_num

/-- C5 witness: the selection on the concrete example, with the non-winning
parseable entry 30 bounded by the winner 50.5. -/
theorem highest_assessment_tool_spec_witness :
    highestAssessment exAsmts = some (⟨505, 1⟩, PyVal.vstr "Project") ∧
    dval ⟨30, 0⟩ ≤ dval ⟨505, 1⟩ ∧
    parsedOf asmtEssay = none := by
  have H := highest_assessment_tool_spec
  refine ⟨H.2.2.1, ?_, rfl⟩
  exact (H.2.1 exAsmts ⟨505, 1⟩ (PyVal.vstr "Project") H.2.2.1).1 asmtMidterm
    (by simp [exAsmts]) ⟨30, 0⟩ rfl
